import Mathlib

/-!
Verification of the BentoML PyTorch framework adapter (`bentoml/pytorch.py`)
and of the adapter contract exercised by the spaCy integration test
(`tests/integration/frameworks/spacy/test_spacy_impl.py`).

The Python code is shallowly embedded: model objects are abstract values,
the filesystem is a map from path strings to file contents, the dynamic
environment (which heavy framework libraries are importable, which paths are
writable) is explicit, and fallible operations return `Except Exc`.
-/

namespace BentoML

/-- Modelled from the spec: the fixed artifact base name.  `MODEL_NAMESPACE`
is declared in `bentoml/_internal/models/base`, which is outside the visible
sources; the spec fixes only that the artifact is "a fixed base name plus a
format-specific extension", the scenario naming it `model.pt`. -/
def MODEL_NAMESPACE : String := "model"

/-- Modelled from the spec: the PyTorch-specific artifact extension
(`PT_EXTENSION` in `bentoml/_internal/models/base`, not in the visible
sources); the spec scenario names the artifact `model.pt`. -/
def PT_EXTENSION : String := ".pt"

/-- An abstract TorchScript (compiled/traced) program, `torch.jit.ScriptModule`.
Its identity stands for the serialized program bytes. -/
structure ScriptModule where
  progId : Nat
deriving DecidableEq, Repr

/-- An abstract generic trainable module, `torch.nn.Module` (not a
`ScriptModule`). -/
structure NNModule where
  objId : Nat
deriving DecidableEq, Repr

/-- The model handles `PyTorchModel` accepts:
`Union[torch.nn.Module, torch.jit.ScriptModule]`. -/
inductive TorchModelObj
  | script (s : ScriptModule)
  | nnmod (m : NNModule)
deriving DecidableEq, Repr

/-- An abstract `pytorch_lightning.LightningModule`.  `compiledForm` is the
TorchScript program its `to_torchscript()` method produces. -/
structure LightningModule where
  compiledForm : ScriptModule
deriving DecidableEq, Repr

/-- The method `LightningModule.to_torchscript()`: conversion to the compiled form. -/
def LightningModule.to_torchscript (m : LightningModule) : ScriptModule :=
  m.compiledForm

/-- Contents of a file on disk, as produced by the serializers involved:
a TorchScript archive (`torch.jit.save` writes a zip container), a
cloudpickle blob (`cloudpickle.dump`, not a zip), or arbitrary other bytes
whose zip-signature status is the flag. -/
inductive FileContent
  | jitArchive (s : ScriptModule)
  | cpickle (m : TorchModelObj)
  | rawBytes (zipSignature : Bool) (data : Nat)
deriving DecidableEq, Repr

/-- Embeds `zipfile.is_zipfile` applied to a file with the given contents: checks
the binary signature for the zip container magic.  TorchScript archives are
zip files; pickle streams are not. -/
def is_zipfile : FileContent → Bool
  | .jitArchive _ => true
  | .cpickle _ => false
  | .rawBytes z _ => z

/-- The filesystem: a partial map from absolute path strings to contents. -/
def FileSystem := String → Option FileContent

/-- Writing one file: the target path is (re)bound, all others unchanged. -/
def FileSystem.write (fs : FileSystem) (p : String) (c : FileContent) :
    FileSystem :=
  fun q => if q = p then some c else fs q

/-- The dynamic environment the adapter runs in: whether `torch` can be
imported (the `LazyLoader` raises `ModuleNotFoundError` on first attribute
access otherwise), and which paths the process cannot open for writing
(permission denied / disk full on `open(..., "wb")` or `torch.jit.save`). -/
structure Env where
  torchAvailable : Bool
  writeDenied : String → Bool

/-- The exceptions that cross the adapter boundary. -/
inductive Exc
  | moduleNotFound (modName : String)
  | missingDependency (msg : String)
  | bentoMLException (msg : String)
  | otherError (msg : String)
deriving DecidableEq, Repr

/-- True exactly on a raw `ModuleNotFoundError`. -/
def Exc.isModuleNotFound : Exc → Bool
  | .moduleNotFound _ => true
  | _ => false

/-- True when a result is an escaped raw `ModuleNotFoundError`. -/
def rawImportErrorEscaped {α : Type} : Except Exc α → Bool
  | .error (.moduleNotFound _) => true
  | _ => false

/-- Modelled from the spec: the `catch_exceptions` decorator of
`bentoml/_internal/utils` (outside the visible sources).  Per the spec it is
"a single reusable decorator/wrapper function parameterized by the target
framework's install hint": it runs the wrapped operation, catches the
raw import failure (`ModuleNotFoundError`) and re-raises it as
`MissingDependencyException` carrying `msg`; every other outcome passes
through unchanged. -/
def catch_exceptions {α : Type} (msg : String) (r : Except Exc α) :
    Except Exc α :=
  match r with
  | .error (.moduleNotFound _) => .error (.missingDependency msg)
  | other => other

/-- The `_torch_exc` installation-guidance message built from
`IMPORT_ERROR_MSG` (its template lives outside the visible sources; the
fields filled in `pytorch.py` are kept). -/
def _torch_exc : String :=
  "pytorch is required by bentoml.pytorch. Refers to " ++
  "https://pytorch.org/get-started/locally/ to setup PyTorch correctly."

/-- The `_pl_exc` installation-guidance message for `pytorch_lightning`. -/
def _pl_exc : String :=
  "pytorch_lightning is required by bentoml.pytorch. Refers to " ++
  "https://pytorch.org/get-started/locally/ to setup PyTorch correctly. " ++
  "Then run `pip install pytorch_lightning`"

/-- Embeds `torch.jit.load` on the given file contents (the file is already known
to exist).  Accessing `torch.jit` first triggers the lazy import of `torch`;
a non-archive input makes the loader itself fail. -/
def torch_jit_load_content (env : Env) (c : FileContent) :
    Except Exc ScriptModule :=
  if env.torchAvailable then
    match c with
    | .jitArchive s => .ok s
    | _ => .error (.otherError "torch.jit.load: invalid archive")
  else .error (.moduleNotFound "torch")

/-- Embeds `torch.jit.load` given a path: the lazy `torch` import fires before the
file is opened; a missing file then raises `FileNotFoundError`. -/
def torch_jit_load_path (env : Env) (fs : FileSystem) (p : String) :
    Except Exc ScriptModule :=
  if env.torchAvailable then
    match fs p with
    | none => .error (.otherError "FileNotFoundError")
    | some c =>
      match c with
      | .jitArchive s => .ok s
      | _ => .error (.otherError "torch.jit.load: invalid archive")
  else .error (.moduleNotFound "torch")

/-- Embeds `cloudpickle.load` on file contents.  Unpickling a stored torch
object imports `torch`, so it raises `ModuleNotFoundError` when `torch` is absent;
any non-pickle input makes unpickling fail. -/
def cloudpickle_load (env : Env) (c : FileContent) :
    Except Exc TorchModelObj :=
  match c with
  | .cpickle m =>
    if env.torchAvailable then .ok m else .error (.moduleNotFound "torch")
  | _ => .error (.otherError "cloudpickle unpickling failed")

/-- Embeds `PyTorchModel.__get_weight_fpath`:
`os.path.join(path, f"{MODEL_NAMESPACE}{PT_EXTENSION}")`. -/
def PyTorchModel.get_weight_fpath (path : String) : String :=
  path ++ "/" ++ MODEL_NAMESPACE ++ PT_EXTENSION

/-- Body of `PyTorchModel.load` (inside the decorator): `zipfile.is_zipfile`
inspects the artifact (raising `FileNotFoundError` if it is absent); a zip
signature dispatches to `torch.jit.load`, anything else to
`cloudpickle.load(open(fpath, "rb"))`. -/
def PyTorchModel.load_body (env : Env) (fs : FileSystem) (path : String) :
    Except Exc TorchModelObj :=
  match fs (PyTorchModel.get_weight_fpath path) with
  | none => .error (.otherError "FileNotFoundError")
  | some c =>
    if is_zipfile c then
      (torch_jit_load_content env c).map TorchModelObj.script
    else
      cloudpickle_load env c

/-- Embeds `PyTorchModel.load`: the body wrapped in
`catch_exceptions(catch_exc=ModuleNotFoundError,
throw_exc=MissingDependencyException, msg=_torch_exc)`. -/
def PyTorchModel.load (env : Env) (fs : FileSystem) (path : String) :
    Except Exc TorchModelObj :=
  catch_exceptions _torch_exc (PyTorchModel.load_body env fs path)

/-- Body of `PyTorchModel.save`: the `isinstance(self._model,
torch.jit.ScriptModule)` check fires the lazy `torch` import first; opening
the target for writing can fail; then a `ScriptModule` goes through
`torch.jit.save` and anything else through
`cloudpickle.dump(self._model, open(fpath, "wb"))`. -/
def PyTorchModel.save_body (env : Env) (m : TorchModelObj) (fs : FileSystem)
    (path : String) : Except Exc FileSystem :=
  if env.torchAvailable then
    if env.writeDenied (PyTorchModel.get_weight_fpath path) then
      .error (.otherError "PermissionError")
    else
      match m with
      | .script s =>
        .ok (fs.write (PyTorchModel.get_weight_fpath path) (.jitArchive s))
      | .nnmod _ =>
        .ok (fs.write (PyTorchModel.get_weight_fpath path) (.cpickle m))
  else .error (.moduleNotFound "torch")

/-- Embeds `PyTorchModel.save`: the body wrapped in the `_torch_exc` decorator. -/
def PyTorchModel.save (env : Env) (m : TorchModelObj) (fs : FileSystem)
    (path : String) : Except Exc FileSystem :=
  catch_exceptions _torch_exc (PyTorchModel.save_body env m fs path)

/-- Embeds `PyTorchLightningModel.__get_weight_fpath`: the same
`os.path.join(path, f"{MODEL_NAMESPACE}{PT_EXTENSION}")` expression. -/
def PyTorchLightningModel.get_weight_fpath (path : String) : String :=
  path ++ "/" ++ MODEL_NAMESPACE ++ PT_EXTENSION

/-- Body of `PyTorchLightningModel.load`: unconditionally
`torch.jit.load(cls.__get_weight_fpath(path))` — no signature inspection. -/
def PyTorchLightningModel.load_body (env : Env) (fs : FileSystem)
    (path : String) : Except Exc ScriptModule :=
  torch_jit_load_path env fs (PyTorchLightningModel.get_weight_fpath path)

/-- Embeds `PyTorchLightningModel.load`: the body wrapped in the `_pl_exc`
decorator. -/
def PyTorchLightningModel.load (env : Env) (fs : FileSystem)
    (path : String) : Except Exc ScriptModule :=
  catch_exceptions _pl_exc (PyTorchLightningModel.load_body env fs path)

/-- Body of `PyTorchLightningModel.save`:
`torch.jit.save(self._model.to_torchscript(), fpath)` — the lazy import
of `torch` fires first, then the write can fail, then the converted program is
written as a TorchScript archive. -/
def PyTorchLightningModel.save_body (env : Env) (m : LightningModule)
    (fs : FileSystem) (path : String) : Except Exc FileSystem :=
  if env.torchAvailable then
    if env.writeDenied (PyTorchLightningModel.get_weight_fpath path) then
      .error (.otherError "PermissionError")
    else
      .ok (fs.write (PyTorchLightningModel.get_weight_fpath path)
        (.jitArchive m.to_torchscript))
  else .error (.moduleNotFound "torch")

/-- Embeds `PyTorchLightningModel.save`: the body wrapped in the `_pl_exc`
decorator. -/
def PyTorchLightningModel.save (env : Env) (m : LightningModule)
    (fs : FileSystem) (path : String) : Except Exc FileSystem :=
  catch_exceptions _pl_exc (PyTorchLightningModel.save_body env m fs path)

/-- A file-handle event performed by the adapter's own code (the `open(...)`
calls written in `pytorch.py`; handles opened internally by `torch` or
`zipfile` library code are managed by those libraries and not recorded). -/
inductive HandleEvent
  | handleOpened (p : String)
  | handleClosed (p : String)
deriving DecidableEq, Repr

/-- The file-handle events `PyTorchModel.load` performs, in order.  The only
`open` in its source is `open(fpath, "rb")` in the cloudpickle branch; no
`close` call and no `with` block appears anywhere in `pytorch.py`, so no
close event is ever emitted — on the success path or when
`cloudpickle.load` raises. -/
def PyTorchModel.load_handle_trace (_env : Env) (fs : FileSystem)
    (path : String) : List HandleEvent :=
  match fs (PyTorchModel.get_weight_fpath path) with
  | none => []
  | some c =>
    if is_zipfile c then []
    else [.handleOpened (PyTorchModel.get_weight_fpath path)]

/-- The file-handle events `PyTorchModel.save` performs, in order: the
cloudpickle branch calls `open(fpath, "wb")` (which fails before producing a
handle when the path is write-denied) and never closes the handle. -/
def PyTorchModel.save_handle_trace (env : Env) (m : TorchModelObj)
    (path : String) : List HandleEvent :=
  if env.torchAvailable then
    if env.writeDenied (PyTorchModel.get_weight_fpath path) then []
    else
      match m with
      | .script _ => []
      | .nnmod _ => [.handleOpened (PyTorchModel.get_weight_fpath path)]
  else []

/-- A trace releases its handles when every opened path is also closed. -/
def handlesReleased (tr : List HandleEvent) : Prop :=
  ∀ p : String, HandleEvent.handleOpened p ∈ tr →
    HandleEvent.handleClosed p ∈ tr

/-- Modelled from the spec: an in-memory spaCy pipeline handle
(`spacy.language.Language`); the `bentoml.spacy` adapter itself is outside
the visible sources. -/
structure SpacyPipeline where
  pipeId : Nat
deriving DecidableEq, Repr

/-- Modelled from the spec and the integration test: applying a spaCy
pipeline to a text produces a document whose `.text` is the input text
verbatim, so `predict_json` returns the input text
(`assert predict_json(spacy_loaded, test_json) == test_json["text"]`). -/
def predict_json (model : SpacyPipeline) (text : String) : String :=
  match model with
  | _ => text

/-- Modelled from the spec: what kind of workflow populated a registry
directory — a saved pipeline artifact, or a cloned spaCy project tree. -/
inductive SpacyDirKind
  | savedModel (m : SpacyPipeline)
  | project (files : List String)
deriving DecidableEq, Repr

/-- Modelled from the spec: the metadata descriptor (`model.yaml`) the
registry reads before invoking `load`; it may list additional requirements —
extra packages the loading environment must satisfy. -/
structure SpacyMeta where
  additional_requirements : List String
deriving DecidableEq, Repr

/-- A registry entry: directory contents plus its metadata descriptor. -/
structure SpacyEntry where
  kind : SpacyDirKind
  meta : SpacyMeta
deriving DecidableEq, Repr

/-- Modelled from the spec: the registry store, mapping tags to entries. -/
def SpacyStore := List (String × SpacyEntry)

/-- Tag lookup in the store (first binding wins). -/
def spacy_lookup (st : SpacyStore) (tag : String) : Option SpacyEntry :=
  match st with
  | [] => none
  | (t, e) :: rest => if t = tag then some e else spacy_lookup rest tag

/-- Modelled from the spec: the environment seen by `bentoml.spacy.load` —
the set of installed packages, against which declared additional
requirements are checked. -/
structure SpacyEnv where
  installed : List String
deriving DecidableEq, Repr

/-- The fixed message of the missing-extra-requirement error. -/
def spacy_extra_req_msg : String :=
  "declared additional requirements are not installed"

/-- Modelled from the spec: `bentoml.spacy.save(name, model, store)` —
allocates a directory keyed by a tag, writes the pipeline artifact and a
metadata descriptor with no additional requirements, and returns the tag
with the updated store. -/
def spacy_save (st : SpacyStore) (name : String) (m : SpacyPipeline) :
    String × SpacyStore :=
  (name, (name, ⟨.savedModel m, ⟨[]⟩⟩) :: st)

/-- Modelled from the spec: `bentoml.spacy.load(tag, store)` — reads the
metadata descriptor; if a declared additional requirement is not installed
it raises `MissingDependencyException`; a directory produced by the project
workflow raises `BentoMLException`; otherwise the saved pipeline is
reconstructed. -/
def spacy_load (se : SpacyEnv) (st : SpacyStore) (tag : String) :
    Except Exc SpacyPipeline :=
  match spacy_lookup st tag with
  | none => .error (.otherError "tag not found")
  | some e =>
    if e.meta.additional_requirements.any
        (fun r => ! se.installed.contains r) then
      .error (.missingDependency spacy_extra_req_msg)
    else
      match e.kind with
      | .savedModel m => .ok m
      | .project _ =>
        .error (.bentoMLException "load called on a project directory")

/-- Modelled from the spec: `bentoml.spacy.load_project(tag, store)` —
returns the project tree for a tag produced by the project-clone workflow,
and raises `BentoMLException` on a tag saved as a plain model. -/
def spacy_load_project (st : SpacyStore) (tag : String) :
    Except Exc (List String) :=
  match spacy_lookup st tag with
  | none => .error (.otherError "tag not found")
  | some e =>
    match e.kind with
    | .project files => .ok files
    | .savedModel _ =>
      .error (.bentoMLException "load_project called on a saved model")

/-! ### Helper lemmas shared across the claim theorems -/

/-- The artifact contents `PyTorchModel.save` produces for each model
subtype: a TorchScript archive for a `ScriptModule`, a cloudpickle blob
otherwise. -/
def PyTorchModel.artifact : TorchModelObj → FileContent
  | .script s => .jitArchive s
  | .nnmod n => .cpickle (.nnmod n)

/-- A successful `PyTorchModel.save` means `torch` was importable, the
target path was writable, and the result filesystem is the input with the
matching artifact written at the weight path. -/
theorem pytorch_save_ok_elim (env : Env) (m : TorchModelObj)
    (fs fs' : FileSystem) (path : String)
    (h : PyTorchModel.save env m fs path = .ok fs') :
    env.torchAvailable = true ∧
    env.writeDenied (PyTorchModel.get_weight_fpath path) = false ∧
    fs' = fs.write (PyTorchModel.get_weight_fpath path)
      (PyTorchModel.artifact m) := by
  unfold PyTorchModel.save catch_exceptions PyTorchModel.save_body at h
  cases hta : env.torchAvailable with
  | false => simp [hta] at h
  | true =>
    simp only [hta, if_true] at h
    cases hw : env.writeDenied (PyTorchModel.get_weight_fpath path) with
    | true => simp [hw] at h
    | false =>
      simp only [hw, Bool.false_eq_true, if_false] at h
      cases m with
      | script s =>
        simp only [Except.ok.injEq] at h
        exact ⟨rfl, rfl, h.symm⟩
      | nnmod n =>
        simp only [Except.ok.injEq] at h
        exact ⟨rfl, rfl, h.symm⟩

/-- A successful `PyTorchLightningModel.save` means `torch` was importable,
the target was writable, and the converted TorchScript archive was written
at the weight path. -/
theorem lightning_save_ok_elim (env : Env) (m : LightningModule)
    (fs fs' : FileSystem) (path : String)
    (h : PyTorchLightningModel.save env m fs path = .ok fs') :
    env.torchAvailable = true ∧
    env.writeDenied (PyTorchLightningModel.get_weight_fpath path) = false ∧
    fs' = fs.write (PyTorchLightningModel.get_weight_fpath path)
      (.jitArchive m.to_torchscript) := by
  unfold PyTorchLightningModel.save catch_exceptions
    PyTorchLightningModel.save_body at h
  cases hta : env.torchAvailable with
  | false => simp [hta] at h
  | true =>
    simp only [hta, if_true] at h
    cases hw : env.writeDenied (PyTorchLightningModel.get_weight_fpath path)
      with
    | true => simp [hw] at h
    | false =>
      simp only [hw, Bool.false_eq_true, if_false, Except.ok.injEq] at h
      exact ⟨rfl, rfl, h.symm⟩

/-- Reading back the path just written returns the written contents. -/
theorem FileSystem.write_read (fs : FileSystem) (p : String)
    (c : FileContent) : fs.write p c p = some c := by
  unfold FileSystem.write
  simp

/-! ### Claim theorems -/

/-- C1: for every supported model handle `m` and directory `p`, a successful
save of `m` to `p` followed by a load from `p` reconstructs a handle equal
to `m` (hence observationally equal: any output computed from the loaded
handle equals the one computed from `m`); likewise the spec-modelled spaCy
adapter returns the pipeline that was saved, and its prediction on the fixed
test text is that same text. -/
theorem round_trip_observational_eq (env : Env) (m : TorchModelObj)
    (fs fs' : FileSystem) (path : String) (se : SpacyEnv) (st : SpacyStore)
    (name : String) (p : SpacyPipeline) (txt : String)
    (hsave : PyTorchModel.save env m fs path = .ok fs') :
    PyTorchModel.load env fs' path = .ok m ∧
    spacy_load se (spacy_save st name p).2 (spacy_save st name p).1 =
      .ok p ∧
    predict_json p txt = txt := by
  obtain ⟨hta, hw, hfs⟩ := pytorch_save_ok_elim env m fs fs' path hsave
  refine ⟨?_, ?_, rfl⟩
  · subst hfs
    unfold PyTorchModel.load catch_exceptions PyTorchModel.load_body
    cases m with
    | script s =>
      rw [FileSystem.write_read]
      simp [PyTorchModel.artifact, is_zipfile, torch_jit_load_content, hta,
        Except.map]
    | nnmod n =>
      rw [FileSystem.write_read]
      simp [PyTorchModel.artifact, is_zipfile, cloudpickle_load, hta]
  · simp [spacy_save, spacy_load, spacy_lookup]

/-- Witness for C1 at a concrete TorchScript model and spaCy pipeline. -/
theorem round_trip_observational_eq_witness :
    PyTorchModel.load ⟨true, fun _ => false⟩
        (FileSystem.write (fun _ => none)
          (PyTorchModel.get_weight_fpath "dir")
          (.jitArchive ⟨0⟩)) "dir" =
      .ok (.script ⟨0⟩) ∧
    spacy_load ⟨[]⟩ (spacy_save [] "tagA" ⟨1⟩).2 (spacy_save [] "tagA" ⟨1⟩).1 =
      .ok ⟨1⟩ ∧
    predict_json ⟨1⟩ "Google cloud is now a separate entity." =
      "Google cloud is now a separate entity." :=
  round_trip_observational_eq ⟨true, fun _ => false⟩ (.script ⟨0⟩)
    (fun _ => none) _ "dir" ⟨[]⟩ [] "tagA" ⟨1⟩
    "Google cloud is now a separate entity." rfl

/-- Helper: the decorator never lets a raw import error escape, whatever
the wrapped operation produced. -/
theorem catch_exceptions_no_raw_escape {α : Type} (msg : String)
    (r : Except Exc α) :
    rawImportErrorEscaped (catch_exceptions msg r) = false := by
  unfold catch_exceptions rawImportErrorEscaped
  cases r with
  | ok v => rfl
  | error e => cases e <;> rfl

/-- C2: no save or load of either adapter can surface a raw
`ModuleNotFoundError`; when the framework import fails (torch unavailable)
each operation instead raises `MissingDependencyException` carrying its
framework-specific installation guidance. -/
theorem missing_dependency_translation (env env₀ : Env)
    (m m₂ : TorchModelObj) (lm : LightningModule) (fs fs₂ : FileSystem)
    (path : String)
    (h0 : env₀.torchAvailable = false)
    (hfs : fs₂ (PyTorchModel.get_weight_fpath path) = some (.cpickle m₂)) :
    rawImportErrorEscaped (PyTorchModel.save env m fs path) = false ∧
    rawImportErrorEscaped (PyTorchModel.load env fs path) = false ∧
    rawImportErrorEscaped (PyTorchLightningModel.save env lm fs path) =
      false ∧
    rawImportErrorEscaped (PyTorchLightningModel.load env fs path) = false ∧
    PyTorchModel.save env₀ m fs path =
      .error (.missingDependency _torch_exc) ∧
    PyTorchModel.load env₀ fs₂ path =
      .error (.missingDependency _torch_exc) ∧
    PyTorchLightningModel.save env₀ lm fs path =
      .error (.missingDependency _pl_exc) ∧
    PyTorchLightningModel.load env₀ fs path =
      .error (.missingDependency _pl_exc) := by
  refine ⟨catch_exceptions_no_raw_escape _ _, catch_exceptions_no_raw_escape _ _,
    catch_exceptions_no_raw_escape _ _, catch_exceptions_no_raw_escape _ _,
    ?_, ?_, ?_, ?_⟩
  · simp [PyTorchModel.save, PyTorchModel.save_body, catch_exceptions, h0]
  · unfold PyTorchModel.load PyTorchModel.load_body
    rw [hfs]
    simp [is_zipfile, cloudpickle_load, h0, catch_exceptions]
  · simp [PyTorchLightningModel.save, PyTorchLightningModel.save_body,
      catch_exceptions, h0]
  · simp [PyTorchLightningModel.load, PyTorchLightningModel.load_body,
      torch_jit_load_path, catch_exceptions, h0]

/-- Witness for C2 in an environment without torch, on a directory holding
a cloudpickle artifact. -/
theorem missing_dependency_translation_witness :
    rawImportErrorEscaped (PyTorchModel.save ⟨false, fun _ => false⟩
      (.nnmod ⟨2⟩) (fun _ => none) "dir") = false ∧
    rawImportErrorEscaped (PyTorchModel.load ⟨false, fun _ => false⟩
      (fun _ => none) "dir") = false ∧
    rawImportErrorEscaped (PyTorchLightningModel.save ⟨false, fun _ => false⟩
      ⟨⟨0⟩⟩ (fun _ => none) "dir") = false ∧
    rawImportErrorEscaped (PyTorchLightningModel.load ⟨false, fun _ => false⟩
      (fun _ => none) "dir") = false ∧
    PyTorchModel.save ⟨false, fun _ => false⟩ (.nnmod ⟨2⟩) (fun _ => none)
      "dir" = .error (.missingDependency _torch_exc) ∧
    PyTorchModel.load ⟨false, fun _ => false⟩
      (FileSystem.write (fun _ => none)
        (PyTorchModel.get_weight_fpath "dir") (.cpickle (.nnmod ⟨2⟩)))
      "dir" = .error (.missingDependency _torch_exc) ∧
    PyTorchLightningModel.save ⟨false, fun _ => false⟩ ⟨⟨0⟩⟩ (fun _ => none)
      "dir" = .error (.missingDependency _pl_exc) ∧
    PyTorchLightningModel.load ⟨false, fun _ => false⟩ (fun _ => none)
      "dir" = .error (.missingDependency _pl_exc) :=
  missing_dependency_translation ⟨false, fun _ => false⟩
    ⟨false, fun _ => false⟩ (.nnmod ⟨2⟩) (.nnmod ⟨2⟩) ⟨⟨0⟩⟩ (fun _ => none)
    (FileSystem.write (fun _ => none)
      (PyTorchModel.get_weight_fpath "dir") (.cpickle (.nnmod ⟨2⟩)))
    "dir" rfl (FileSystem.write_read _ _ _)

/-- A directory whose artifact file is a cloudpickle blob (not a zip). -/
def cpickleDirFs : FileSystem :=
  FileSystem.write (fun _ => none)
    (PyTorchLightningModel.get_weight_fpath "d") (.cpickle (.nnmod ⟨5⟩))

/-- C3 counterexample: `PyTorchLightningModel.load` does not inspect the
artifact's binary signature.  On a directory whose artifact is a non-zip
cloudpickle blob — which the general-purpose loader reads back fine — it
still calls `torch.jit.load` and fails, instead of using the
general-purpose object loader as the claim requires of every adapter. -/
theorem lightning_load_ignores_signature_cex :
    is_zipfile (.cpickle (.nnmod ⟨5⟩)) = false ∧
    cpickleDirFs (PyTorchLightningModel.get_weight_fpath "d") =
      some (.cpickle (.nnmod ⟨5⟩)) ∧
    cloudpickle_load ⟨true, fun _ => false⟩ (.cpickle (.nnmod ⟨5⟩)) =
      .ok (.nnmod ⟨5⟩) ∧
    PyTorchLightningModel.load ⟨true, fun _ => false⟩ cpickleDirFs "d" =
      .error (.otherError "torch.jit.load: invalid archive") := by
  refine ⟨rfl, FileSystem.write_read _ _ _, rfl, ?_⟩
  unfold PyTorchLightningModel.load PyTorchLightningModel.load_body
    torch_jit_load_path catch_exceptions cpickleDirFs
  rw [FileSystem.write_read]
  rfl

/-- C3 (amended): `PyTorchModel.load` chooses its deserialization strategy
by inspecting the artifact's binary signature — a zip signature dispatches
to `torch.jit.load`, anything else to `cloudpickle.load` —  whereas
`PyTorchLightningModel.load` always uses `torch.jit.load`, regardless of
the signature. -/
theorem load_dispatch_amended (env : Env) (fs : FileSystem) (path : String)
    (c : FileContent)
    (hc : fs (PyTorchModel.get_weight_fpath path) = some c) :
    PyTorchModel.load env fs path =
      catch_exceptions _torch_exc
        (if is_zipfile c then
          (torch_jit_load_content env c).map TorchModelObj.script
        else cloudpickle_load env c) ∧
    PyTorchLightningModel.load env fs path =
      catch_exceptions _pl_exc
        (torch_jit_load_path env fs
          (PyTorchLightningModel.get_weight_fpath path)) := by
  constructor
  · unfold PyTorchModel.load PyTorchModel.load_body
    rw [hc]
  · rfl

/-- Witness for the amended C3 on a zip artifact in a live environment. -/
theorem load_dispatch_amended_witness :
    PyTorchModel.load ⟨true, fun _ => false⟩
        (FileSystem.write (fun _ => none)
          (PyTorchModel.get_weight_fpath "d") (.jitArchive ⟨9⟩)) "d" =
      catch_exceptions _torch_exc
        (if is_zipfile (.jitArchive ⟨9⟩) then
          (torch_jit_load_content ⟨true, fun _ => false⟩
            (.jitArchive ⟨9⟩)).map TorchModelObj.script
        else cloudpickle_load ⟨true, fun _ => false⟩ (.jitArchive ⟨9⟩)) ∧
    PyTorchLightningModel.load ⟨true, fun _ => false⟩
        (FileSystem.write (fun _ => none)
          (PyTorchModel.get_weight_fpath "d") (.jitArchive ⟨9⟩)) "d" =
      catch_exceptions _pl_exc
        (torch_jit_load_path ⟨true, fun _ => false⟩
          (FileSystem.write (fun _ => none)
            (PyTorchModel.get_weight_fpath "d") (.jitArchive ⟨9⟩))
          (PyTorchLightningModel.get_weight_fpath "d")) :=
  load_dispatch_amended ⟨true, fun _ => false⟩
    (FileSystem.write (fun _ => none)
      (PyTorchModel.get_weight_fpath "d") (.jitArchive ⟨9⟩)) "d"
    (.jitArchive ⟨9⟩) (FileSystem.write_read _ _ _)

/-- C4: the serialization strategy follows the model's runtime subtype —
a `ScriptModule` is written with `torch.jit.save` (a TorchScript archive),
a generic `nn.Module` with `cloudpickle.dump` (a pickle blob), and a
`LightningModule` is first converted via `to_torchscript` and then written
as a TorchScript archive. -/
theorem save_strategy_by_subtype (env : Env) (s : ScriptModule)
    (n : NNModule) (lm : LightningModule) (fs : FileSystem) (path : String)
    (hta : env.torchAvailable = true)
    (hw : env.writeDenied (PyTorchModel.get_weight_fpath path) = false) :
    PyTorchModel.save env (.script s) fs path =
      .ok (fs.write (PyTorchModel.get_weight_fpath path) (.jitArchive s)) ∧
    PyTorchModel.save env (.nnmod n) fs path =
      .ok (fs.write (PyTorchModel.get_weight_fpath path)
        (.cpickle (.nnmod n))) ∧
    PyTorchLightningModel.save env lm fs path =
      .ok (fs.write (PyTorchLightningModel.get_weight_fpath path)
        (.jitArchive lm.to_torchscript)) := by
  have hw' : env.writeDenied (PyTorchLightningModel.get_weight_fpath path) =
      false := hw
  refine ⟨?_, ?_, ?_⟩
  · simp [PyTorchModel.save, PyTorchModel.save_body, catch_exceptions, hta,
      hw]
  · simp [PyTorchModel.save, PyTorchModel.save_body, catch_exceptions, hta,
      hw]
  · simp [PyTorchLightningModel.save, PyTorchLightningModel.save_body,
      catch_exceptions, hta, hw']

/-- Witness for C4 at concrete models and an empty writable directory. -/
theorem save_strategy_by_subtype_witness :
    PyTorchModel.save ⟨true, fun _ => false⟩ (.script ⟨3⟩) (fun _ => none)
      "d" =
      .ok (FileSystem.write (fun _ => none)
        (PyTorchModel.get_weight_fpath "d") (.jitArchive ⟨3⟩)) ∧
    PyTorchModel.save ⟨true, fun _ => false⟩ (.nnmod ⟨4⟩) (fun _ => none)
      "d" =
      .ok (FileSystem.write (fun _ => none)
        (PyTorchModel.get_weight_fpath "d") (.cpickle (.nnmod ⟨4⟩))) ∧
    PyTorchLightningModel.save ⟨true, fun _ => false⟩ ⟨⟨6⟩⟩ (fun _ => none)
      "d" =
      .ok (FileSystem.write (fun _ => none)
        (PyTorchLightningModel.get_weight_fpath "d")
        (.jitArchive (LightningModule.to_torchscript ⟨⟨6⟩⟩))) :=
  save_strategy_by_subtype ⟨true, fun _ => false⟩ ⟨3⟩ ⟨4⟩ ⟨⟨6⟩⟩
    (fun _ => none) "d" rfl rfl

/-- C5: a successful `PyTorchModel.save` writes exactly one file in the
target directory — the fixed base name plus the format extension — and
leaves every other path in the filesystem untouched. -/
theorem save_writes_exactly_one_file (env : Env) (m : TorchModelObj)
    (fs fs' : FileSystem) (path q : String)
    (hsave : PyTorchModel.save env m fs path = .ok fs')
    (hq : q ≠ PyTorchModel.get_weight_fpath path) :
    PyTorchModel.get_weight_fpath path =
      path ++ "/" ++ MODEL_NAMESPACE ++ PT_EXTENSION ∧
    (fs' (PyTorchModel.get_weight_fpath path)).isSome = true ∧
    fs' q = fs q := by
  obtain ⟨hta, hw, hfs⟩ := pytorch_save_ok_elim env m fs fs' path hsave
  subst hfs
  refine ⟨rfl, ?_, ?_⟩
  · rw [FileSystem.write_read]
    rfl
  · unfold FileSystem.write
    simp [hq]

/-- Witness for C5: saving into an empty directory touches only the
artifact path. -/
theorem save_writes_exactly_one_file_witness :
    PyTorchModel.get_weight_fpath "d" =
      "d" ++ "/" ++ MODEL_NAMESPACE ++ PT_EXTENSION ∧
    ((FileSystem.write (fun _ => none)
        (PyTorchModel.get_weight_fpath "d")
        (PyTorchModel.artifact (.script ⟨3⟩)))
      (PyTorchModel.get_weight_fpath "d")).isSome = true ∧
    (FileSystem.write (fun _ => none)
        (PyTorchModel.get_weight_fpath "d")
        (PyTorchModel.artifact (.script ⟨3⟩))) "d/meta.json" =
      (fun _ => none : FileSystem) "d/meta.json" :=
  save_writes_exactly_one_file ⟨true, fun _ => false⟩ (.script ⟨3⟩)
    (fun _ => none) _ "d" "d/meta.json" rfl (by decide)

/-- A directory whose artifact is a non-zip file that is not a valid
pickle stream, so `cloudpickle.load` raises during deserialization. -/
def corruptDirFs : FileSystem :=
  FileSystem.write (fun _ => none)
    (PyTorchModel.get_weight_fpath "d") (.rawBytes false 7)

/-- C6: the cloudpickle branches call `open(...)` with no `with` block and
no `close()` anywhere in the adapter, so the handle opened for the artifact
is not released on the exit path — here concretely on a load whose
deserialization raises, and on a save of a generic module. -/
theorem cloudpickle_branch_leaks_handle :
    PyTorchModel.load ⟨true, fun _ => false⟩ corruptDirFs "d" =
      .error (.otherError "cloudpickle unpickling failed") ∧
    PyTorchModel.load_handle_trace ⟨true, fun _ => false⟩ corruptDirFs "d" =
      [.handleOpened (PyTorchModel.get_weight_fpath "d")] ∧
    ¬ handlesReleased
        (PyTorchModel.load_handle_trace ⟨true, fun _ => false⟩
          corruptDirFs "d") ∧
    PyTorchModel.save_handle_trace ⟨true, fun _ => false⟩ (.nnmod ⟨3⟩) "d" =
      [.handleOpened (PyTorchModel.get_weight_fpath "d")] ∧
    ¬ handlesReleased
        (PyTorchModel.save_handle_trace ⟨true, fun _ => false⟩
          (.nnmod ⟨3⟩) "d") := by
  have htr : PyTorchModel.load_handle_trace ⟨true, fun _ => false⟩
      corruptDirFs "d" =
      [.handleOpened (PyTorchModel.get_weight_fpath "d")] := by
    unfold PyTorchModel.load_handle_trace corruptDirFs
    rw [FileSystem.write_read]
    rfl
  have hsv : PyTorchModel.save_handle_trace ⟨true, fun _ => false⟩
      (.nnmod ⟨3⟩) "d" =
      [.handleOpened (PyTorchModel.get_weight_fpath "d")] := rfl
  refine ⟨?_, htr, ?_, hsv, ?_⟩
  · unfold PyTorchModel.load PyTorchModel.load_body catch_exceptions
      corruptDirFs
    rw [FileSystem.write_read]
    rfl
  · rw [htr]
    intro h
    have := h (PyTorchModel.get_weight_fpath "d") (List.mem_singleton.mpr rfl)
    simp at this
  · rw [hsv]
    intro h
    have := h (PyTorchModel.get_weight_fpath "d") (List.mem_singleton.mpr rfl)
    simp at this

/-- Helper: the decorator forwards any error other than a raw
`ModuleNotFoundError` unchanged. -/
theorem catch_exceptions_preserves_other {α : Type} (msg : String)
    (r : Except Exc α) (e : Exc) (he : e.isModuleNotFound = false)
    (h : r = .error e) : catch_exceptions msg r = .error e := by
  subst h
  unfold catch_exceptions
  cases e with
  | moduleNotFound s => simp [Exc.isModuleNotFound] at he
  | missingDependency s => rfl
  | bentoMLException s => rfl
  | otherError s => rfl

/-- C7: whenever a save or load body fails with any exception that is not a
raw `ModuleNotFoundError` (missing file, permission denied, corrupt
artifact, ...), the decorated operation surfaces exactly that exception
unchanged — the decorator translates only the import failure, and there are
no retries. -/
theorem other_exceptions_propagate (env : Env) (m : TorchModelObj)
    (lm : LightningModule) (fs : FileSystem) (path : String)
    (e₁ e₂ e₃ e₄ : Exc)
    (he₁ : e₁.isModuleNotFound = false) (he₂ : e₂.isModuleNotFound = false)
    (he₃ : e₃.isModuleNotFound = false) (he₄ : e₄.isModuleNotFound = false)
    (h₁ : PyTorchModel.load_body env fs path = .error e₁)
    (h₂ : PyTorchModel.save_body env m fs path = .error e₂)
    (h₃ : PyTorchLightningModel.load_body env fs path = .error e₃)
    (h₄ : PyTorchLightningModel.save_body env lm fs path = .error e₄) :
    PyTorchModel.load env fs path = .error e₁ ∧
    PyTorchModel.save env m fs path = .error e₂ ∧
    PyTorchLightningModel.load env fs path = .error e₃ ∧
    PyTorchLightningModel.save env lm fs path = .error e₄ :=
  ⟨catch_exceptions_preserves_other _ _ _ he₁ h₁,
   catch_exceptions_preserves_other _ _ _ he₂ h₂,
   catch_exceptions_preserves_other _ _ _ he₃ h₃,
   catch_exceptions_preserves_other _ _ _ he₄ h₄⟩

/-- Witness for C7: with torch installed but every path write-denied and an
empty directory, the loads fail with `FileNotFoundError` and the saves with
`PermissionError`, and all four surface unchanged. -/
theorem other_exceptions_propagate_witness :
    PyTorchModel.load ⟨true, fun _ => true⟩ (fun _ => none) "d" =
      .error (.otherError "FileNotFoundError") ∧
    PyTorchModel.save ⟨true, fun _ => true⟩ (.nnmod ⟨1⟩) (fun _ => none)
      "d" = .error (.otherError "PermissionError") ∧
    PyTorchLightningModel.load ⟨true, fun _ => true⟩ (fun _ => none) "d" =
      .error (.otherError "FileNotFoundError") ∧
    PyTorchLightningModel.save ⟨true, fun _ => true⟩ ⟨⟨2⟩⟩ (fun _ => none)
      "d" = .error (.otherError "PermissionError") :=
  other_exceptions_propagate ⟨true, fun _ => true⟩ (.nnmod ⟨1⟩) ⟨⟨2⟩⟩
    (fun _ => none) "d"
    (.otherError "FileNotFoundError") (.otherError "PermissionError")
    (.otherError "FileNotFoundError") (.otherError "PermissionError")
    rfl rfl rfl rfl rfl rfl rfl rfl

/-- C8: when a saved model's metadata descriptor declares an additional
requirement that is not installed in the loading environment, the
spec-modelled `bentoml.spacy.load` raises the missing-dependency error
kind. -/
theorem extra_requirement_missing_dep (se : SpacyEnv) (st : SpacyStore)
    (tag r : String) (ent : SpacyEntry)
    (hlook : spacy_lookup st tag = some ent)
    (hr : r ∈ ent.meta.additional_requirements)
    (hins : se.installed.contains r = false) :
    spacy_load se st tag =
      .error (.missingDependency spacy_extra_req_msg) := by
  have hany : ent.meta.additional_requirements.any
      (fun q => ! se.installed.contains q) = true :=
    List.any_eq_true.mpr ⟨r, hr, by rw [hins]; rfl⟩
  simp only [spacy_load, hlook, hany, if_true]

/-- Witness for C8: a stored pipeline declaring an uninstalled transformers
requirement makes load fail with the missing-dependency error. -/
theorem extra_requirement_missing_dep_witness :
    spacy_load ⟨["spacy"]⟩
      [("test_spacy",
        ⟨.savedModel ⟨0⟩, ⟨["spacy-transformers>=1.0.3,<1.1.0"]⟩⟩)]
      "test_spacy" =
      .error (.missingDependency spacy_extra_req_msg) :=
  extra_requirement_missing_dep ⟨["spacy"]⟩
    [("test_spacy",
      ⟨.savedModel ⟨0⟩, ⟨["spacy-transformers>=1.0.3,<1.1.0"]⟩⟩)]
    "test_spacy" "spacy-transformers>=1.0.3,<1.1.0"
    ⟨.savedModel ⟨0⟩, ⟨["spacy-transformers>=1.0.3,<1.1.0"]⟩⟩
    rfl (by decide) (by decide)

/-- C9: invoking the wrong workflow's loader on a tag raises a domain error
in the spec-modelled spaCy adapter: `load_project` on a tag saved as a
plain model, and `load` on a tag produced by project cloning, both fail
with `BentoMLException` rather than returning a partially-constructed
result. -/
theorem wrong_workflow_raises_domain_error (se : SpacyEnv) (st : SpacyStore)
    (tagM tagP : String) (p : SpacyPipeline) (files : List String)
    (eM eP : SpacyEntry)
    (hM : spacy_lookup st tagM = some eM) (hkM : eM.kind = .savedModel p)
    (hP : spacy_lookup st tagP = some eP) (hkP : eP.kind = .project files)
    (hmP : eP.meta.additional_requirements = []) :
    spacy_load_project st tagM =
      .error (.bentoMLException "load_project called on a saved model") ∧
    spacy_load se st tagP =
      .error (.bentoMLException "load called on a project directory") := by
  constructor
  · unfold spacy_load_project
    rw [hM]
    simp [hkM]
  · unfold spacy_load
    rw [hP]
    simp [hmP, hkP]

/-- Witness for C9 on a two-entry store holding one saved model and one
cloned project. -/
theorem wrong_workflow_raises_domain_error_witness :
    spacy_load_project
      [("m", ⟨.savedModel ⟨0⟩, ⟨[]⟩⟩),
       ("proj", ⟨.project ["project.yml"], ⟨[]⟩⟩)] "m" =
      .error (.bentoMLException "load_project called on a saved model") ∧
    spacy_load ⟨[]⟩
      [("m", ⟨.savedModel ⟨0⟩, ⟨[]⟩⟩),
       ("proj", ⟨.project ["project.yml"], ⟨[]⟩⟩)] "proj" =
      .error (.bentoMLException "load called on a project directory") :=
  wrong_workflow_raises_domain_error ⟨[]⟩
    [("m", ⟨.savedModel ⟨0⟩, ⟨[]⟩⟩),
     ("proj", ⟨.project ["project.yml"], ⟨[]⟩⟩)]
    "m" "proj" ⟨0⟩ ["project.yml"]
    ⟨.savedModel ⟨0⟩, ⟨[]⟩⟩ ⟨.project ["project.yml"], ⟨[]⟩⟩
    (by decide) rfl (by decide) rfl rfl

/-- C10: both adapters use the identical artifact path; a successful
`PyTorchLightningModel.save` leaves a TorchScript zip archive there, so
`PyTorchModel.load` on that directory takes the archive branch and returns
the same compiled module (wrapped in the union type) that
`PyTorchLightningModel.load` returns. -/
theorem lightning_artifact_loadable_by_pytorch (env : Env)
    (lm : LightningModule) (fs fs' : FileSystem) (path : String)
    (hsave : PyTorchLightningModel.save env lm fs path = .ok fs') :
    PyTorchModel.get_weight_fpath path =
      PyTorchLightningModel.get_weight_fpath path ∧
    fs' (PyTorchLightningModel.get_weight_fpath path) =
      some (.jitArchive lm.to_torchscript) ∧
    is_zipfile (.jitArchive lm.to_torchscript) = true ∧
    PyTorchModel.load env fs' path = .ok (.script lm.to_torchscript) ∧
    PyTorchLightningModel.load env fs' path = .ok lm.to_torchscript := by
  obtain ⟨hta, hw, hfs⟩ :=
    lightning_save_ok_elim env lm fs fs' path hsave
  subst hfs
  refine ⟨rfl, FileSystem.write_read _ _ _, rfl, ?_, ?_⟩
  · unfold PyTorchModel.load catch_exceptions PyTorchModel.load_body
    have hpe : PyTorchModel.get_weight_fpath path =
        PyTorchLightningModel.get_weight_fpath path := rfl
    rw [hpe, FileSystem.write_read]
    simp [is_zipfile, torch_jit_load_content, hta, Except.map]
  · unfold PyTorchLightningModel.load catch_exceptions
      PyTorchLightningModel.load_body torch_jit_load_path
    rw [FileSystem.write_read]
    simp [hta]

/-- Witness for C10 at a concrete Lightning module saved into an empty
directory. -/
theorem lightning_artifact_loadable_by_pytorch_witness :
    PyTorchModel.get_weight_fpath "d" =
      PyTorchLightningModel.get_weight_fpath "d" ∧
    (FileSystem.write (fun _ => none)
        (PyTorchLightningModel.get_weight_fpath "d")
        (.jitArchive (LightningModule.to_torchscript ⟨⟨8⟩⟩)))
      (PyTorchLightningModel.get_weight_fpath "d") =
      some (.jitArchive (LightningModule.to_torchscript ⟨⟨8⟩⟩)) ∧
    is_zipfile (.jitArchive (LightningModule.to_torchscript ⟨⟨8⟩⟩)) = true ∧
    PyTorchModel.load ⟨true, fun _ => false⟩
      (FileSystem.write (fun _ => none)
        (PyTorchLightningModel.get_weight_fpath "d")
        (.jitArchive (LightningModule.to_torchscript ⟨⟨8⟩⟩))) "d" =
      .ok (.script (LightningModule.to_torchscript ⟨⟨8⟩⟩)) ∧
    PyTorchLightningModel.load ⟨true, fun _ => false⟩
      (FileSystem.write (fun _ => none)
        (PyTorchLightningModel.get_weight_fpath "d")
        (.jitArchive (LightningModule.to_torchscript ⟨⟨8⟩⟩))) "d" =
      .ok (LightningModule.to_torchscript ⟨⟨8⟩⟩) :=
  lightning_artifact_loadable_by_pytorch ⟨true, fun _ => false⟩ ⟨⟨8⟩⟩
    (fun _ => none) _ "d" rfl

end BentoML
